import Mathlib

/-!
Shallow embedding of the ProdSensor GitHub Action (`src/main.py`) in Lean 4,
together with theorems settling the frozen claims about its specification.

Python dictionaries are modelled as association lists; `dict.get` becomes
`List.lookup`/`Option.getD`; Python truthiness on optional strings and
numbers is modelled explicitly; raising exceptions becomes returning a
value of an explicit outcome type.
-/

/-- Exit code constant from `main.py` line 17. -/
def EXIT_PRODUCTION_READY : Nat := 0

/-- Exit code constant from `main.py` line 18. -/
def EXIT_NOT_PRODUCTION_READY : Nat := 1

/-- Exit code constant from `main.py` line 19. -/
def EXIT_CONDITIONALLY_READY : Nat := 2

/-- Exit code constant from `main.py` line 20. -/
def EXIT_API_ERROR : Nat := 3

/-- Exit code constant from `main.py` line 21. -/
def EXIT_AUTH_ERROR : Nat := 4

/-- Exit code constant from `main.py` line 22. -/
def EXIT_TIMEOUT : Nat := 5

/-- Python truthiness of an optional string (`None` and `""` are falsy). -/
def pyTruthyStr : Option String → Bool
  | none => false
  | some s => s != ""

/-- Python truthiness of an optional natural number (`None` and `0` are falsy). -/
def pyTruthyNat : Option Nat → Bool
  | none => false
  | some n => n != 0

/-- Python `str()` applied to an optional string: `str(None)` is `"None"`,
used when a possibly-`None` run id is interpolated into an f-string path. -/
def pyStrOpt : Option String → String
  | none => "None"
  | some s => s

/-- Python string slicing `s[:n]`: the first `n` characters. -/
def pySlice (s : String) (n : Nat) : String := String.mk (s.data.take n)

/-- A JSON value, as returned by `response.json()`. -/
inductive Json where
  | null
  | bool (b : Bool)
  | num (n : Int)
  | str (s : String)
  | arr (elems : List Json)
  | obj (fields : List (String × Json))
deriving Repr

/-- One status document returned by `GET /v1/runs/{id}`: `main.py` reads
`status["status"]` and `status.get("error", "Unknown error")`. -/
structure RunStatus where
  status : String
  error : Option String
deriving DecidableEq, Repr

/-- Result of the polling loop `wait_for_completion` (`main.py` lines 128-149):
the loop either returns a COMPLETE status, raises on a FAILED status, or
raises `TimeoutError`. -/
inductive WaitResult where
  | completed (s : RunStatus)
  | analysisFailed (msg : String)
  | timedOut (msg : String)
deriving DecidableEq, Repr

/-- The polling loop of `wait_for_completion` (`main.py` lines 133-149),
started at iteration `i`.  The remote status sequence is modelled as
`stream : Nat → RunStatus` (the status the server would report at the i-th
poll).  Elapsed wall-clock time at the start of iteration `i` is modelled as
`5 * i` seconds, since the loop sleeps `poll_interval = 5` seconds between
polls (network-call duration is abstracted away).  Returns the loop result
together with the list of iteration indices at which a status poll
(`self.get_status`) was issued. -/
def wait_aux (stream : Nat → RunStatus) (timeoutS : Nat) (i : Nat) :
    WaitResult × List Nat :=
  if h : timeoutS < 5 * i then
    (.timedOut ("Analysis timed out after " ++ toString timeoutS ++ "s"), [])
  else
    let s := stream i
    if s.status = "COMPLETE" then
      (.completed s, [i])
    else if s.status = "FAILED" then
      (.analysisFailed ("Analysis failed: " ++ s.error.getD "Unknown error"), [i])
    else
      let rest := wait_aux stream timeoutS (i + 1)
      (rest.1, i :: rest.2)
termination_by timeoutS + 1 - 5 * i
decreasing_by omega

/-- `wait_for_completion` (`main.py` lines 128-149): run the polling loop
from its first iteration. -/
def wait_for_completion (stream : Nat → RunStatus) (timeoutS : Nat) :
    WaitResult × List Nat :=
  wait_aux stream timeoutS 0

/-- An HTTP response as seen by `api_request`: its status code, the result
of `response.json()` (`none` models a body that is not valid JSON, where
`response.json()` raises `JSONDecodeError`), and `response.text`. -/
structure HttpResponse where
  status : Nat
  jsonBody : Option Json
  text : String

/-- Outcome of `api_request` (`main.py` lines 89-107).  `authError` is the
`Exception("Invalid API key")` raised on 401, `rateLimitError` the one on
429, `apiError d` the `Exception(f"API error: {d}")` raised on other
statuses ≥ 400, `jsonDecodeError` models `response.json()` raising on a
non-JSON body, and `attributeError` models `.get` called on a non-dict
JSON value. -/
inductive ApiOutcome where
  | ok (body : Json)
  | authError
  | rateLimitError
  | apiError (detail : Json)
  | jsonDecodeError
  | attributeError
deriving Repr

/-- `api_request` (`main.py` lines 89-107) applied to the response the
server produced.  Follows the source order: 401, then 429, then
`status >= 400` (where `response.json().get("detail", response.text)` is
evaluated), else `response.json()` is returned. -/
def api_request (resp : HttpResponse) : ApiOutcome :=
  if resp.status = 401 then .authError
  else if resp.status = 429 then .rateLimitError
  else if 400 ≤ resp.status then
    match resp.jsonBody with
    | none => .jsonDecodeError
    | some (Json.obj fields) =>
        .apiError ((fields.lookup "detail").getD (Json.str resp.text))
    | some _ => .attributeError
  else
    match resp.jsonBody with
    | none => .jsonDecodeError
    | some j => .ok j

/-- One finding dictionary of the report: `main.py` reads
`f.get("severity")`, `f.get("title", "Untitled")` and
`f.get("description", "")`; each field may be absent. -/
structure Finding where
  title : Option String
  description : Option String
  severity : Option String
deriving DecidableEq, Repr

/-- Severity counting as in `main.py` lines 169-171 and 285-286:
`len([f for f in findings if f.get("severity") == sev])`. -/
def count_severity (findings : List Finding) (sev : String) : Nat :=
  (findings.filter (fun f => f.severity == some sev)).length

/-- The blocker sub-list of `main.py` line 207:
`[f for f in findings if f.get("severity") == "Blocker"]`. -/
def blocker_findings (findings : List Finding) : List Finding :=
  findings.filter (fun f => f.severity == some "Blocker")

/-- The blocker entries actually rendered by `main.py` lines 210-213:
the first 5 blocker findings, as (title, description) with the
description sliced to its first 200 characters. -/
def shown_blockers (findings : List Finding) : List (String × String) :=
  ((blocker_findings findings).take 5).map
    (fun f => (f.title.getD "Untitled", pySlice (f.description.getD "") 200))

/-- The remainder count of `main.py` lines 215-216: when more than 5
blockers exist, the number reported by the `"...and {n} more blockers"`
line; otherwise no line is emitted. -/
def blocker_remainder (findings : List Finding) : Option Nat :=
  if 5 < (blocker_findings findings).length then
    some ((blocker_findings findings).length - 5)
  else none

/-- Verdict emoji selection, `main.py` lines 157-165. -/
def verdict_emoji (verdict : String) : String :=
  if verdict = "PRODUCTION_READY" then ":white_check_mark:"
  else if verdict = "NOT_PRODUCTION_READY" then ":x:"
  else ":warning:"

/-- Verdict text selection, `main.py` lines 157-165. -/
def verdict_text (verdict : String) : String :=
  if verdict = "PRODUCTION_READY" then "**PRODUCTION READY**"
  else if verdict = "NOT_PRODUCTION_READY" then "**NOT PRODUCTION READY**"
  else "**CONDITIONALLY READY**"

/-- Python `str.title()` over a character list: an alphabetic character is
upper-cased when the previous character was not alphabetic, lower-cased
otherwise. -/
def pyTitleChars : List Char → Bool → List Char
  | [], _ => []
  | c :: cs, prevAlpha =>
      (if c.isAlpha then (if prevAlpha then c.toLower else c.toUpper) else c)
        :: pyTitleChars cs c.isAlpha

/-- Python `str.title()`. -/
def pyTitle (s : String) : String := String.mk (pyTitleChars s.data false)

/-- Dimension status bucketing, `main.py` lines 196-202. -/
def dimension_status (score : Int) : String :=
  if 70 ≤ score then ":green_circle:"
  else if 50 ≤ score then ":yellow_circle:"
  else ":red_circle:"

/-- One rendered dimension row, `main.py` line 204. -/
def render_dimension (p : String × Option Int) : String :=
  let dimScore := p.2.getD 0
  "| " ++ pyTitle ((p.1).replace "_" " ") ++ " | " ++ toString dimScore
    ++ " | " ++ dimension_status dimScore ++ " |\n"

/-- One rendered blocker bullet, `main.py` line 213. -/
def render_finding (p : String × String) : String :=
  "- **" ++ p.1 ++ "**\n  " ++ p.2 ++ "\n\n"

/-- The report document: `main.py` reads `report.get("verdict", "UNKNOWN")`,
`report.get("score", "N/A")` / `report.get("score")`,
`report.get("findings", [])` and `report.get("dimensions", {})`; each
dimension value supplies `data.get("score", 0)`. -/
structure Report where
  verdict : Option String
  score : Option Int
  findings : List Finding
  dimensions : List (String × Option Int)
deriving DecidableEq, Repr

/-- The report path of `main.py` lines 126 and 218/291:
`f"/v1/runs/{run_id}/report.json"`. -/
def report_path (runId : Option String) : String :=
  "/v1/runs/" ++ pyStrOpt runId ++ "/report.json"

/-- The status path of `main.py` line 122: `f"/v1/runs/{run_id}"`. -/
def status_path (runId : Option String) : String :=
  "/v1/runs/" ++ pyStrOpt runId

/-- `format_pr_comment` (`main.py` lines 151-220): assembles the PR comment
string from the verdict badge, severity counts, dimension table, truncated
blocker list and attribution footer. -/
def format_pr_comment (apiUrl : String) (report : Report)
    (runId : Option String) : String :=
  let verdict := report.verdict.getD "UNKNOWN"
  let scoreText := match report.score with
    | none => "N/A"
    | some n => toString n
  let blockers := count_severity report.findings "Blocker"
  let majors := count_severity report.findings "Major"
  let minors := count_severity report.findings "Minor"
  let header :=
    "## " ++ verdict_emoji verdict ++ " ProdSensor Analysis\n\n"
      ++ verdict_text verdict ++ "\n\n**Score:** " ++ scoreText
      ++ "/100\n\n### Findings Summary\n| Severity | Count |\n|----------|-------|\n| :rotating_light: Blockers | "
      ++ toString blockers ++ " |\n| :warning: Major | " ++ toString majors
      ++ " |\n| :information_source: Minor | " ++ toString minors ++ " |\n\n"
  let dimSection :=
    if report.dimensions.isEmpty then ""
    else
      "### Dimension Scores\n| Dimension | Score | Status |\n|-----------|-------|--------|\n"
        ++ String.join (report.dimensions.map render_dimension)
  let blockSection :=
    if (blocker_findings report.findings).isEmpty then ""
    else
      "\n### :rotating_light: Blockers (Must Fix)\n\n"
        ++ String.join ((shown_blockers report.findings).map render_finding)
        ++ (match blocker_remainder report.findings with
            | some n => "*...and " ++ toString n ++ " more blockers*\n"
            | none => "")
  let footer :=
    "\n---\n*Analyzed by [ProdSensor](https://prodsensor.com) | [View Full Report]("
      ++ apiUrl ++ report_path runId ++ ")*"
  header ++ dimSection ++ blockSection ++ footer

/-- `get_pr_number` (`main.py` lines 70-87).  `payload = none` models a
missing `GITHUB_EVENT_PATH` or any exception while reading the event file
(both return `None`); `payload = some pr` models a successfully parsed
event whose `pull_request.number` lookup yields `pr`. -/
def get_pr_number (eventName : Option String) (payload : Option (Option Nat)) :
    Option Nat :=
  match payload with
  | none => none
  | some pr =>
      if eventName == some "pull_request" then pr
      else if eventName == some "pull_request_target" then pr
      else none

/-- What the GitHub comment-delivery call does: either an HTTP response is
obtained (with its status and text) or the client raises a network
exception. -/
inductive DeliveryResult where
  | response (status : Nat) (text : String)
  | networkError (msg : String)
deriving DecidableEq, Repr

/-- Observable outcome of `post_pr_comment` (`main.py` lines 222-250);
every constructor is a normal return (a log line at most), never a raise. -/
inductive PostOutcome where
  | skippedNoPR
  | skippedNoToken
  | posted
  | postFailed (text : String)
  | postErrored (msg : String)
deriving DecidableEq, Repr

/-- The body of the `try:` block of `post_pr_comment` (`main.py` lines
233-247): performs one delivery call; a network exception propagates as
`Except.error`, a non-201 response logs a warning. -/
def post_attempt (delivery : DeliveryResult) : Except String PostOutcome :=
  match delivery with
  | .networkError msg => .error msg
  | .response s t => .ok (if s ≠ 201 then .postFailed t else .posted)

/-- `post_pr_comment` (`main.py` lines 222-250): skips when not in a PR
context (`if not pr_number`), skips when no token is available
(`if not self.github_token`), and otherwise attempts delivery with every
exception caught (`except Exception`) and logged as a warning. -/
def post_pr_comment (eventName : Option String) (payload : Option (Option Nat))
    (token : Option String) (delivery : DeliveryResult) : PostOutcome :=
  let prNumber := get_pr_number eventName payload
  if !(pyTruthyNat prNumber) then .skippedNoPR
  else if !(pyTruthyStr token) then .skippedNoToken
  else
    match post_attempt delivery with
    | .ok o => o
    | .error msg => .postErrored msg

/-- Python `a or b` on optional strings (`main.py` line 118):
returns `a` when truthy, else `b`. -/
def pyOrStr (a b : Option String) : Option String :=
  match a with
  | some s => if s = "" then b else some s
  | none => b

/-- The run-id normalization of `start_analysis` (`main.py` line 118):
`result.get("run_id") or result.get("id")`, with the response body
modelled as an association list of string-valued fields. -/
def normalize_run_id (result : List (String × String)) : Option String :=
  pyOrStr (result.lookup "run_id") (result.lookup "id")

/-- The exit-code selection at the end of `run` (`main.py` lines 310-325):
policy `never`, policy `blockers`, and the `else` branch implementing the
`not-ready` rule. -/
def classifyExit (failOn verdict : String) (blockerCount : Nat) : Nat :=
  if failOn = "never" then EXIT_PRODUCTION_READY
  else if failOn = "blockers" then
    if 0 < blockerCount then EXIT_NOT_PRODUCTION_READY
    else EXIT_PRODUCTION_READY
  else
    if verdict = "PRODUCTION_READY" then EXIT_PRODUCTION_READY
    else if verdict = "CONDITIONALLY_READY" then EXIT_CONDITIONALLY_READY
    else EXIT_NOT_PRODUCTION_READY

/-- Python `"Invalid API key" in str(e)` (`main.py` line 332): substring
containment, expressed via `String.splitOn`. -/
def containsInvalidApiKey (msg : String) : Bool :=
  2 ≤ (msg.splitOn "Invalid API key").length

/-- Outcome of the submission / polling / report-fetch portion of `run`
(`main.py` lines 264-279): either all three API phases succeed yielding a
run id and a report, or a `TimeoutError` is raised by the poll loop, or
some other exception (API error, auth error, analysis failure, ...) with
the given message is raised. -/
inductive AnalysisOutcome where
  | success (runId : Option String) (report : Report)
  | timedOutErr (msg : String)
  | failedExc (msg : String)
deriving Repr

/-- `run` (`main.py` lines 252-334): input validation, the analysis
phases, optional comment posting (result discarded), and exit-code
selection, including the `except` clauses mapping `TimeoutError` to 5 and
other exceptions to 4 or 3 by message content. -/
def run (apiKey repoUrl : Option String) (failOn : String) (commentOnPr : Bool)
    (outcome : AnalysisOutcome) (eventName : Option String)
    (payload : Option (Option Nat)) (token : Option String)
    (delivery : DeliveryResult) : Nat :=
  if !(pyTruthyStr apiKey) then EXIT_AUTH_ERROR
  else if !(pyTruthyStr repoUrl) then EXIT_API_ERROR
  else
    match outcome with
    | .timedOutErr _ => EXIT_TIMEOUT
    | .failedExc msg =>
        if containsInvalidApiKey msg then EXIT_AUTH_ERROR else EXIT_API_ERROR
    | .success _ report =>
        let verdict := report.verdict.getD "UNKNOWN"
        let blockerCount := count_severity report.findings "Blocker"
        let _posted : Option PostOutcome :=
          if commentOnPr then
            some (post_pr_comment eventName payload token delivery)
          else none
        classifyExit failOn verdict blockerCount

/-! ## Theorems -/

/-- C1: the exit classifier is a pure total function of
(failurePolicy, verdict, blockerCount) matching the table in the spec:
policy `never` always returns 0; policy `blockers` returns 1 iff
blockerCount > 0 and 0 otherwise; policy `not-ready` returns 0 iff
verdict = PRODUCTION_READY, 2 iff verdict = CONDITIONALLY_READY, and 1
for every other verdict. -/
theorem classifyExit_matches_table (v : String) (bc : Nat) :
    classifyExit "never" v bc = 0 ∧
    classifyExit "blockers" v bc = (if 0 < bc then 1 else 0) ∧
    classifyExit "not-ready" v bc =
      (if v = "PRODUCTION_READY" then 0
       else if v = "CONDITIONALLY_READY" then 2
       else 1) := by
  refine ⟨rfl, ?_, ?_⟩ <;>
    simp [classifyExit, EXIT_PRODUCTION_READY, EXIT_NOT_PRODUCTION_READY,
      EXIT_CONDITIONALLY_READY]

/-- C2 counterexample: the formatter does not give an unrecognized verdict
such as `UNKNOWN` a generic "unknown" treatment; it renders exactly the
same badge and text as the recognized `CONDITIONALLY_READY`
classification. -/
theorem unknown_verdict_not_generic :
    verdict_text "UNKNOWN" = verdict_text "CONDITIONALLY_READY" ∧
    verdict_text "UNKNOWN" = "**CONDITIONALLY READY**" ∧
    verdict_emoji "UNKNOWN" = verdict_emoji "CONDITIONALLY_READY" ∧
    verdict_emoji "UNKNOWN" = ":warning:" := by
  refine ⟨?_, ?_, ?_, ?_⟩ <;> rfl

/-- C2 (amended): every verdict other than the two recognized strings
`PRODUCTION_READY` and `NOT_PRODUCTION_READY` — including `UNKNOWN` and
any new server string — is rendered by the formatter's `else` branch with
the warning emoji and the `**CONDITIONALLY READY**` text; no crash
occurs. -/
theorem unrecognized_verdict_warning_badge (v : String)
    (h1 : v ≠ "PRODUCTION_READY") (h2 : v ≠ "NOT_PRODUCTION_READY") :
    verdict_text v = "**CONDITIONALLY READY**" ∧
    verdict_emoji v = ":warning:" := by
  constructor <;> simp [verdict_text, verdict_emoji, h1, h2]

/-- Witness for C2's amended theorem at the concrete verdict `UNKNOWN`. -/
theorem unrecognized_verdict_warning_badge_witness :
    verdict_text "UNKNOWN" = "**CONDITIONALLY READY**" ∧
    verdict_emoji "UNKNOWN" = ":warning:" :=
  unrecognized_verdict_warning_badge "UNKNOWN" (by decide) (by decide)

/-- C9: every failure-policy string other than `never` and `blockers` —
not only the documented default `not-ready` — takes the `else` branch of
the exit-code selection, so the not-ready rule applies: 0 iff
verdict = PRODUCTION_READY, 2 iff verdict = CONDITIONALLY_READY,
else 1. -/
theorem unrecognized_policy_defaults_not_ready (p v : String) (bc : Nat)
    (h1 : p ≠ "never") (h2 : p ≠ "blockers") :
    classifyExit p v bc =
      (if v = "PRODUCTION_READY" then 0
       else if v = "CONDITIONALLY_READY" then 2
       else 1) ∧
    classifyExit p v bc = classifyExit "not-ready" v bc := by
  constructor <;>
    simp [classifyExit, h1, h2, EXIT_PRODUCTION_READY,
      EXIT_NOT_PRODUCTION_READY, EXIT_CONDITIONALLY_READY]

/-- Witness for C9 at the unrecognized policies `"typo"` and `""`. -/
theorem unrecognized_policy_defaults_not_ready_witness :
    classifyExit "typo" "CONDITIONALLY_READY" 3 = 2 ∧
    classifyExit "" "NOT_PRODUCTION_READY" 0 = 1 := by
  constructor
  · have h := (unrecognized_policy_defaults_not_ready "typo"
      "CONDITIONALLY_READY" 3 (by decide) (by decide)).1
    simpa using h
  · have h := (unrecognized_policy_defaults_not_ready ""
      "NOT_PRODUCTION_READY" 0 (by decide) (by decide)).1
    simpa using h

/-- C10 counterexample: when both `run_id` and `id` are present but falsy
(empty strings), the normalization returns the empty string, not a null
handle. -/
theorem normalize_run_id_not_null_on_falsy :
    normalize_run_id [("run_id", ""), ("id", "")] = some "" ∧
    (some "" : Option String) ≠ none := by
  refine ⟨rfl, by decide⟩

/-- C10 (amended): the normalization prefers a truthy `run_id` value over
`id`; when `run_id` is absent or falsy it returns the `id` value verbatim
(possibly an empty string, which is not null); when neither key is present
it returns a null handle without raising, and the null handle is rendered
as the literal string `None` in the subsequent status and report request
paths. -/
theorem normalize_run_id_spec (result : List (String × String)) :
    (∀ s, result.lookup "run_id" = some s → s ≠ "" →
        normalize_run_id result = some s) ∧
    (result.lookup "run_id" = none →
        normalize_run_id result = result.lookup "id") ∧
    (result.lookup "run_id" = some "" →
        normalize_run_id result = result.lookup "id") ∧
    (result.lookup "run_id" = none → result.lookup "id" = none →
        normalize_run_id result = none ∧
        status_path (normalize_run_id result) = "/v1/runs/None" ∧
        report_path (normalize_run_id result) = "/v1/runs/None/report.json") := by
  refine ⟨?_, ?_, ?_, ?_⟩
  · intro s hs hne
    simp [normalize_run_id, pyOrStr, hs, hne]
  · intro h
    simp [normalize_run_id, pyOrStr, h]
  · intro h
    simp [normalize_run_id, pyOrStr, h]
  · intro h1 h2
    refine ⟨?_, ?_, ?_⟩ <;>
      simp [normalize_run_id, pyOrStr, h1, h2, status_path, report_path,
        pyStrOpt]

/-- Witness for C10's amended theorem: a response carrying both keys with
a truthy `run_id`, and the empty response. -/
theorem normalize_run_id_spec_witness :
    normalize_run_id [("run_id", "abc"), ("id", "xyz")] = some "abc" ∧
    normalize_run_id [] = none ∧
    status_path (normalize_run_id []) = "/v1/runs/None" := by
  refine ⟨(normalize_run_id_spec _).1 "abc" (by decide) (by decide), ?_, ?_⟩
  · exact ((normalize_run_id_spec []).2.2.2 rfl rfl).1
  · exact ((normalize_run_id_spec []).2.2.2 rfl rfl).2.1

/-- Example finding with an unrecognized severity, for witnesses. -/
def exInfoFinding : Finding := ⟨some "note", some "informational", some "Info"⟩

/-- Example findings list for witnesses: one of each recognized severity. -/
def exFindings : List Finding :=
  [⟨some "b1", some "d1", some "Blocker"⟩,
   ⟨some "m1", some "d2", some "Major"⟩,
   ⟨some "n1", some "d3", some "Minor"⟩]

/-- C6: the formatter's Blocker/Major/Minor counts equal the number of
findings whose severity field is exactly that string, and a finding with
any other severity value (such as `Info`) contributes to none of the three
counts. -/
theorem severity_counts_exact (findings : List Finding) (f : Finding)
    (hb : f.severity ≠ some "Blocker") (hm : f.severity ≠ some "Major")
    (hn : f.severity ≠ some "Minor") :
    count_severity findings "Blocker"
      = findings.countP (fun g => g.severity == some "Blocker") ∧
    count_severity findings "Major"
      = findings.countP (fun g => g.severity == some "Major") ∧
    count_severity findings "Minor"
      = findings.countP (fun g => g.severity == some "Minor") ∧
    count_severity (f :: findings) "Blocker"
      = count_severity findings "Blocker" ∧
    count_severity (f :: findings) "Major"
      = count_severity findings "Major" ∧
    count_severity (f :: findings) "Minor"
      = count_severity findings "Minor" := by
  refine ⟨?_, ?_, ?_, ?_, ?_, ?_⟩ <;>
    simp [count_severity, List.countP_eq_length_filter, List.filter_cons,
      hb, hm, hn]

/-- Witness for C6 at a concrete findings list and an `Info` finding. -/
theorem severity_counts_exact_witness :
    count_severity exFindings "Blocker"
      = exFindings.countP (fun g => g.severity == some "Blocker") ∧
    count_severity (exInfoFinding :: exFindings) "Blocker"
      = count_severity exFindings "Blocker" ∧
    count_severity (exInfoFinding :: exFindings) "Major"
      = count_severity exFindings "Major" ∧
    count_severity (exInfoFinding :: exFindings) "Minor"
      = count_severity exFindings "Minor" := by
  have h := severity_counts_exact exFindings exInfoFinding
    (by decide) (by decide) (by decide)
  exact ⟨h.1, h.2.2.2.1, h.2.2.2.2.1, h.2.2.2.2.2⟩

/-- The Python slice `s[:n]` has at most `n` characters. -/
theorem pySlice_length_le (s : String) (n : Nat) : (pySlice s n).length ≤ n := by
  show (s.data.take n).length ≤ n
  exact List.length_take_le n s.data

/-- Example findings list with exactly 7 blockers, for the C7 witness. -/
def exSevenBlockers : List Finding :=
  [⟨some "b1", some "d1", some "Blocker"⟩,
   ⟨some "b2", some "d2", some "Blocker"⟩,
   ⟨some "b3", some "d3", some "Blocker"⟩,
   ⟨some "m1", some "dm", some "Major"⟩,
   ⟨some "b4", some "d4", some "Blocker"⟩,
   ⟨some "b5", some "d5", some "Blocker"⟩,
   ⟨some "b6", some "d6", some "Blocker"⟩,
   ⟨some "b7", some "d7", some "Blocker"⟩]

/-- C7: the formatter lists at most the first 5 blocker findings (entry i
of the rendered list is the rendering of blocker i), each description
clipped to 200 characters; with more than 5 blockers the remainder count
equals total - 5, and with 5 or fewer no remainder line is appended. -/
theorem blocker_list_truncation (findings : List Finding) :
    (shown_blockers findings).length
      = min (blocker_findings findings).length 5 ∧
    (∀ p ∈ shown_blockers findings, p.2.length ≤ 200) ∧
    (∀ i, i < 5 → (shown_blockers findings)[i]? =
        ((blocker_findings findings)[i]?).map
          (fun f => (f.title.getD "Untitled",
                     pySlice (f.description.getD "") 200))) ∧
    (5 < (blocker_findings findings).length →
        blocker_remainder findings
          = some ((blocker_findings findings).length - 5)) ∧
    ((blocker_findings findings).length ≤ 5 →
        blocker_remainder findings = none) := by
  refine ⟨?_, ?_, ?_, ?_, ?_⟩
  · simp [shown_blockers, Nat.min_comm]
  · intro p hp
    simp only [shown_blockers, List.mem_map] at hp
    obtain ⟨f, _, rfl⟩ := hp
    exact pySlice_length_le _ 200
  · intro i hi
    simp [shown_blockers, List.getElem?_take, hi]
  · intro h
    simp only [blocker_remainder]
    rw [if_pos h]
  · intro h
    simp only [blocker_remainder]
    rw [if_neg (by omega)]

/-- Witness for C7 at a findings list containing 7 blockers: 5 entries are
shown and the remainder count is 2. -/
theorem blocker_list_truncation_witness :
    (shown_blockers exSevenBlockers).length = 5 ∧
    blocker_remainder exSevenBlockers = some 2 ∧
    (∀ p ∈ shown_blockers exSevenBlockers, p.2.length ≤ 200) := by
  have h := blocker_list_truncation exSevenBlockers
  refine ⟨?_, ?_, h.2.1⟩
  · rw [h.1]; decide
  · have := h.2.2.2.1 (by decide)
    simpa using this

/-- C5 counterexample: on a 500 response whose body is not JSON (for
example a plain-text error page), `api_request` does not raise an ApiError
carrying the raw response body; `response.json()` raises a JSON decode
error first. -/
theorem api_request_nonjson_counterexample :
    api_request ⟨500, none, "Internal Server Error"⟩
      = ApiOutcome.jsonDecodeError ∧
    api_request ⟨500, none, "Internal Server Error"⟩
      ≠ ApiOutcome.apiError (Json.str "Internal Server Error") := by
  constructor
  · rfl
  · rw [show api_request ⟨500, none, "Internal Server Error"⟩
        = ApiOutcome.jsonDecodeError from rfl]
    simp

/-- C5 (amended): on HTTP 401 the client raises AuthError and on 429
RateLimitError; on any other status ≥ 400 whose body parses as a JSON
object it raises ApiError carrying the server-provided `detail` field
when present and the raw response text otherwise; on a status < 400 with
a JSON body it returns the parsed body; when the body is not valid JSON
(and the status is neither 401 nor 429) the JSON decode error from
`response.json()` propagates instead of an ApiError. -/
theorem api_request_spec (resp : HttpResponse) :
    (resp.status = 401 → api_request resp = ApiOutcome.authError) ∧
    (resp.status ≠ 401 → resp.status = 429 →
        api_request resp = ApiOutcome.rateLimitError) ∧
    (∀ fields, resp.jsonBody = some (Json.obj fields) → resp.status ≠ 401 →
        resp.status ≠ 429 → 400 ≤ resp.status →
        api_request resp
          = ApiOutcome.apiError
              ((fields.lookup "detail").getD (Json.str resp.text))) ∧
    (∀ j, resp.jsonBody = some j → resp.status < 400 →
        api_request resp = ApiOutcome.ok j) ∧
    (resp.jsonBody = none → resp.status ≠ 401 → resp.status ≠ 429 →
        api_request resp = ApiOutcome.jsonDecodeError) := by
  refine ⟨?_, ?_, ?_, ?_, ?_⟩
  · intro h
    simp [api_request, h]
  · intro h1 h2
    simp [api_request, h1, h2]
  · intro fields hb h1 h2 h3
    simp [api_request, h1, h2, h3, hb]
  · intro j hb h400
    have h1 : resp.status ≠ 401 := by omega
    have h2 : resp.status ≠ 429 := by omega
    have h3 : ¬ 400 ≤ resp.status := by omega
    simp [api_request, h1, h2, h3, hb]
  · intro hb h1 h2
    by_cases h3 : 400 ≤ resp.status <;> simp [api_request, h1, h2, h3, hb]

/-- Witness for C5's amended theorem: a 500 response whose JSON object
body carries a `detail` field, and a 401 response. -/
theorem api_request_spec_witness :
    api_request ⟨500, some (Json.obj [("detail", Json.str "boom")]), "raw"⟩
      = ApiOutcome.apiError (Json.str "boom") ∧
    api_request ⟨401, some (Json.obj []), "x"⟩ = ApiOutcome.authError := by
  constructor
  · have h := (api_request_spec
      ⟨500, some (Json.obj [("detail", Json.str "boom")]), "raw"⟩).2.2.1
      [("detail", Json.str "boom")] rfl (by decide) (by decide) (by decide)
    simpa using h
  · exact (api_request_spec ⟨401, some (Json.obj []), "x"⟩).1 rfl

/-- Example report for the C8 witness. -/
def exReport : Report := ⟨some "PRODUCTION_READY", some 92, exFindings, []⟩

/-- Example successful analysis outcome for the C8 witness. -/
def exOutcome : AnalysisOutcome := .success (some "r-1") exReport

/-- C8: every delivery failure (network exception or any response status
other than 201) is absorbed inside `post_pr_comment` — it returns normally
with a logged-warning outcome — and the delivery result never alters the
exit code computed by `run`; on a non-PR trigger, or when the token is
absent, `post_pr_comment` is a no-op skip. -/
theorem delivery_failure_harmless (apiKey repoUrl : Option String)
    (failOn : String) (cpr : Bool) (outcome : AnalysisOutcome)
    (en : Option String) (payload : Option (Option Nat))
    (tok : Option String) (d d' : DeliveryResult) :
    run apiKey repoUrl failOn cpr outcome en payload tok d
      = run apiKey repoUrl failOn cpr outcome en payload tok d' ∧
    (en ≠ some "pull_request" → en ≠ some "pull_request_target" →
        post_pr_comment en payload tok d = PostOutcome.skippedNoPR) ∧
    (pyTruthyNat (get_pr_number en payload) = true →
        pyTruthyStr tok = false →
        post_pr_comment en payload tok d = PostOutcome.skippedNoToken) ∧
    (∀ msg, d = DeliveryResult.networkError msg →
        post_pr_comment en payload tok d = PostOutcome.skippedNoPR ∨
        post_pr_comment en payload tok d = PostOutcome.skippedNoToken ∨
        post_pr_comment en payload tok d = PostOutcome.postErrored msg) ∧
    (∀ s t, d = DeliveryResult.response s t → s ≠ 201 →
        post_pr_comment en payload tok d = PostOutcome.skippedNoPR ∨
        post_pr_comment en payload tok d = PostOutcome.skippedNoToken ∨
        post_pr_comment en payload tok d = PostOutcome.postFailed t) := by
  refine ⟨?_, ?_, ?_, ?_, ?_⟩
  · cases outcome <;> rfl
  · intro h1 h2
    cases payload <;>
      simp [post_pr_comment, get_pr_number, pyTruthyNat, h1, h2]
  · intro hpr htok
    simp [post_pr_comment, hpr, htok]
  · intro msg hd
    subst hd
    by_cases hpr : pyTruthyNat (get_pr_number en payload) = true
    · by_cases htok : pyTruthyStr tok = true
      · right; right
        simp [post_pr_comment, post_attempt, hpr, htok]
      · right; left
        rw [Bool.not_eq_true] at htok
        simp [post_pr_comment, hpr, htok]
    · left
      rw [Bool.not_eq_true] at hpr
      simp [post_pr_comment, hpr]
  · intro s t hd hs
    subst hd
    by_cases hpr : pyTruthyNat (get_pr_number en payload) = true
    · by_cases htok : pyTruthyStr tok = true
      · right; right
        simp [post_pr_comment, post_attempt, hpr, htok, hs]
      · right; left
        rw [Bool.not_eq_true] at htok
        simp [post_pr_comment, hpr, htok]
    · left
      rw [Bool.not_eq_true] at hpr
      simp [post_pr_comment, hpr]

/-- Witness for C8: a network error during delivery yields the same exit
code as a successful delivery, a push trigger skips, and the network
error is absorbed as a logged outcome. -/
theorem delivery_failure_harmless_witness :
    run (some "key") (some "https://github.com/a/b") "not-ready" true
        exOutcome (some "pull_request") (some (some 7)) (some "tok")
        (DeliveryResult.networkError "boom")
      = run (some "key") (some "https://github.com/a/b") "not-ready" true
        exOutcome (some "pull_request") (some (some 7)) (some "tok")
        (DeliveryResult.response 201 "created") ∧
    post_pr_comment (some "push") (some (some 7)) (some "tok")
        (DeliveryResult.networkError "boom") = PostOutcome.skippedNoPR ∧
    (post_pr_comment (some "pull_request") (some (some 7)) (some "tok")
        (DeliveryResult.networkError "boom") = PostOutcome.skippedNoPR ∨
     post_pr_comment (some "pull_request") (some (some 7)) (some "tok")
        (DeliveryResult.networkError "boom") = PostOutcome.skippedNoToken ∨
     post_pr_comment (some "pull_request") (some (some 7)) (some "tok")
        (DeliveryResult.networkError "boom") = PostOutcome.postErrored "boom") := by
  refine ⟨?_, ?_, ?_⟩
  · exact (delivery_failure_harmless (some "key")
      (some "https://github.com/a/b") "not-ready" true exOutcome
      (some "pull_request") (some (some 7)) (some "tok")
      (DeliveryResult.networkError "boom")
      (DeliveryResult.response 201 "created")).1
  · exact (delivery_failure_harmless (some "key")
      (some "https://github.com/a/b") "not-ready" true exOutcome
      (some "push") (some (some 7)) (some "tok")
      (DeliveryResult.networkError "boom")
      (DeliveryResult.networkError "boom")).2.1 (by decide) (by decide)
  · exact (delivery_failure_harmless (some "key")
      (some "https://github.com/a/b") "not-ready" true exOutcome
      (some "pull_request") (some (some 7)) (some "tok")
      (DeliveryResult.networkError "boom")
      (DeliveryResult.networkError "boom")).2.2.2.1 "boom" rfl

/-- Helper: when the first terminal status in the stream is a COMPLETE at
index `i + n` and it arrives within the timeout, the loop started at `i`
returns that status having polled exactly the indices `i, ..., i + n`. -/
theorem wait_aux_reaches_complete (stream : Nat → RunStatus) (timeoutS : Nat) :
    ∀ n i, (stream (i + n)).status = "COMPLETE" →
      (∀ j, i ≤ j → j < i + n →
          (stream j).status ≠ "COMPLETE" ∧ (stream j).status ≠ "FAILED") →
      5 * (i + n) ≤ timeoutS →
      wait_aux stream timeoutS i
        = (.completed (stream (i + n)), List.range' i (n + 1)) := by
  intro n
  induction n with
  | zero =>
    intro i hc _ ht
    simp only [Nat.add_zero] at hc ht ⊢
    rw [wait_aux, dif_neg (by omega : ¬ timeoutS < 5 * i)]
    simp only []
    rw [if_pos hc]
    simp
  | succ m ih =>
    intro i hc hmid ht
    rw [wait_aux, dif_neg (by omega : ¬ timeoutS < 5 * i)]
    simp only []
    have hi := hmid i (Nat.le_refl i) (by omega)
    rw [if_neg hi.1, if_neg hi.2]
    have hc' : (stream (i + 1 + m)).status = "COMPLETE" := by
      have : i + 1 + m = i + (m + 1) := by omega
      rw [this]; exact hc
    have hmid' : ∀ j, i + 1 ≤ j → j < i + 1 + m →
        (stream j).status ≠ "COMPLETE" ∧ (stream j).status ≠ "FAILED" := by
      intro j h1 h2
      exact hmid j (by omega) (by omega)
    have ht' : 5 * (i + 1 + m) ≤ timeoutS := by omega
    rw [ih (i + 1) hc' hmid' ht']
    have heq : i + 1 + m = i + (m + 1) := by omega
    rw [heq]
    simp [List.range'_succ]

/-- C3: for every status stream whose first terminal status is a COMPLETE
at poll index k, reached within the timeout, `wait_for_completion` returns
exactly that first COMPLETE status, and the polls issued are exactly
indices 0..k — no further status poll is issued after observing it. -/
theorem wait_returns_first_complete (stream : Nat → RunStatus)
    (timeoutS k : Nat)
    (hk : (stream k).status = "COMPLETE")
    (hfirst : ∀ j, j < k →
        (stream j).status ≠ "COMPLETE" ∧ (stream j).status ≠ "FAILED")
    (ht : 5 * k ≤ timeoutS) :
    wait_for_completion stream timeoutS
      = (.completed (stream k), List.range (k + 1)) := by
  have h0 := wait_aux_reaches_complete stream timeoutS k 0
    (by simpa using hk)
    (by intro j h1 h2; exact hfirst j (by omega))
    (by omega)
  rw [wait_for_completion, h0]
  simp [List.range_eq_range']

/-- Example status stream for the C3 witness: RUNNING twice, then
COMPLETE from the third poll on. -/
def exStreamComplete : Nat → RunStatus :=
  fun j => if j < 2 then ⟨"RUNNING", none⟩ else ⟨"COMPLETE", none⟩

/-- Witness for C3: with COMPLETE first observed at poll index 2 and a
600-second timeout, the loop returns that status after exactly the three
polls 0, 1, 2. -/
theorem wait_returns_first_complete_witness :
    wait_for_completion exStreamComplete 600
      = (WaitResult.completed ⟨"COMPLETE", none⟩, [0, 1, 2]) := by
  have h := wait_returns_first_complete exStreamComplete 600 2
    (by decide) (by decide) (by decide)
  exact h.trans (by decide)

/-- Helper: when no status in the stream is ever COMPLETE or FAILED, the
loop started at `i` times out after polling exactly the indices whose
elapsed time is within the timeout. -/
theorem wait_aux_never_terminal (stream : Nat → RunStatus) (timeoutS : Nat)
    (h : ∀ j, (stream j).status ≠ "COMPLETE" ∧ (stream j).status ≠ "FAILED") :
    ∀ m i, timeoutS + 1 - 5 * i ≤ m →
      wait_aux stream timeoutS i
        = (.timedOut ("Analysis timed out after " ++ toString timeoutS ++ "s"),
           List.range' i (timeoutS / 5 + 1 - i)) := by
  intro m
  induction m with
  | zero =>
    intro i hm
    rw [wait_aux, dif_pos (by omega : timeoutS < 5 * i)]
    have hz : timeoutS / 5 + 1 - i = 0 := by omega
    rw [hz]
    simp
  | succ m ih =>
    intro i hm
    by_cases hti : timeoutS < 5 * i
    · rw [wait_aux, dif_pos hti]
      have hz : timeoutS / 5 + 1 - i = 0 := by omega
      rw [hz]
      simp
    · rw [wait_aux, dif_neg hti]
      simp only []
      rw [if_neg (h i).1, if_neg (h i).2]
      rw [ih (i + 1) (by omega)]
      have hs : timeoutS / 5 + 1 - i = (timeoutS / 5 + 1 - (i + 1)) + 1 := by
        omega
      rw [hs, List.range'_succ]

/-- C4: for every status stream that never reaches a terminal state, the
poll loop terminates by raising Timeout once the elapsed time exceeds the
configured timeout, after exactly `timeout / 5 + 1` polls. -/
theorem wait_times_out (stream : Nat → RunStatus) (timeoutS : Nat)
    (h : ∀ j, (stream j).status ≠ "COMPLETE" ∧ (stream j).status ≠ "FAILED") :
    wait_for_completion stream timeoutS
      = (.timedOut ("Analysis timed out after " ++ toString timeoutS ++ "s"),
         List.range (timeoutS / 5 + 1)) := by
  have h0 := wait_aux_never_terminal stream timeoutS h (timeoutS + 1) 0
    (by omega)
  rw [wait_for_completion, h0]
  simp [List.range_eq_range']

/-- Example status stream for the C4 witness: RUNNING forever. -/
def exStreamRunning : Nat → RunStatus := fun _ => ⟨"RUNNING", none⟩

/-- Witness for C4: a stream that never transitions, with a 12-second
timeout, raises Timeout after the three polls at elapsed times 0, 5, 10
seconds. -/
theorem wait_times_out_witness :
    wait_for_completion exStreamRunning 12
      = (WaitResult.timedOut "Analysis timed out after 12s", [0, 1, 2]) := by
  have h := wait_times_out exStreamRunning 12 (by
    intro j
    rw [show exStreamRunning j = ⟨"RUNNING", none⟩ from rfl]
    decide)
  exact h.trans (by decide)
